import Mathlib

/-!
Shallow embedding of the core logic of `youtube_downloader_pro.py`
(single-file GUI downloader).  We embed:

* the Python string operations the code uses (`in`, `startswith`, `strip`,
  `lower`, slicing) as executable functions on character lists;
* the bounded history log (`add_to_history`, `clear_history`);
* the metadata-cache lookup performed at the top of `analyze_url_fast`;
* the quality-tier to format-selection mapping of `_download_fast_thread`;
* the progress hook `progress_hook_fast`;
* the download orchestration (`start_download_fast` plus
  `_download_fast_thread`) as a pure function of the request, the FFmpeg
  flag and the extractor outcome;
* the thread context in which each UI callback of the worker bodies is
  invoked (directly from the worker, or marshalled through `after`);
* a small event-step model of the UI state machine: URL entry, the smart
  download button, the `is_analyzing` guard and the worker threads.
-/

namespace YTDP

/-! ## Python string primitives -/

/-- Bool test that `p` occurs at the front of `l` (chars of `str.startswith`). -/
def charsLead : List Char → List Char → Bool
  | [], _ => true
  | _ :: _, [] => false
  | a :: as, b :: bs => a == b && charsLead as bs

/-- Bool test that `p` occurs contiguously inside `l` (chars of Python `in`). -/
def charsWithin (p : List Char) : List Char → Bool
  | [] => charsLead p []
  | b :: bs => charsLead p (b :: bs) || charsWithin p bs

/-- Python `sub in s` for strings. -/
def strContains (s sub : String) : Bool := charsWithin sub.data s.data

/-- Python `s.startswith(p)`. -/
def strStartsWith (s p : String) : Bool := charsLead p.data s.data

/-- Python `s.strip()`: drop leading and trailing whitespace. -/
def strTrim (s : String) : String :=
  ⟨((s.data.dropWhile Char.isWhitespace).reverse.dropWhile Char.isWhitespace).reverse⟩

/-- Python `s.lower()`. -/
def strToLower (s : String) : String := ⟨s.data.map Char.toLower⟩

/-- Python slicing `s[:n]`. -/
def strTake (s : String) (n : Nat) : String := ⟨s.data.take n⟩

/-! ## History log (`add_to_history`, `save_history`, `clear_history`) -/

/-- One entry of `self.download_history`: the dict
`{'title': info.get('title', 'Unknown')[:40], 'date': ..., 'format': ...}`. -/
structure HistoryItem where
  title : String
  date : String
  format : String
  deriving DecidableEq, Repr

/-- List part of `add_to_history`: `insert(0, item)` then `pop()` (drop the
last element) when the length exceeds 20. -/
def add_to_history (log : List HistoryItem) (item : HistoryItem) : List HistoryItem :=
  let l := item :: log
  if l.length > 20 then l.dropLast else l

/-- History produced by a sequence of appends starting from the empty log,
oldest append first. -/
def historyAfter (items : List HistoryItem) : List HistoryItem :=
  items.foldl add_to_history []

/-- Observable outcome of one `clear_history` call: the resulting log,
whether the confirmation dialog was shown (`messagebox.askyesno`), and
whether `save_history` ran. -/
structure ClearResult where
  history : List HistoryItem
  prompted : Bool
  saved : Bool
  deriving DecidableEq, Repr

/-- `clear_history`: on an empty log it only shows a notification and
returns; otherwise it asks for confirmation and, only on a yes, empties the
log and persists it. -/
def clear_history (history : List HistoryItem) (userConfirms : Bool) : ClearResult :=
  if history = [] then { history := history, prompted := false, saved := false }
  else if userConfirms then { history := [], prompted := true, saved := true }
  else { history := history, prompted := true, saved := false }

/-! ## Metadata cache (`analyze_url_fast`, cache check) -/

/-- The `fast_info` dict cached by `_analyze_fast_thread`. -/
structure FastInfo where
  title : String
  channel : String
  duration : Nat
  is_playlist : Bool
  video_count : Nat
  deriving DecidableEq, Repr

/-- What the synchronous part of `analyze_url_fast` decides to do. -/
inductive AnalyzeAction where
  | ignored
  | useCache (info : FastInfo)
  | startProbe
  deriving DecidableEq, Repr

/-- Cache-check logic of `analyze_url_fast`.  `cache_key` stands for
`hashlib.md5(url.encode()).hexdigest()` (the hash itself is collision-free
by the stated scope of the spec and is not modelled).  The cache is the
dict `self.video_info_cache` mapping keys to `(cache_time, info)` pairs;
timestamps are seconds.  A stale entry is skipped, never deleted: the
function does not modify the cache. -/
def analyze_url_fast_action (url : String) (cache_key : String) (is_analyzing : Bool)
    (cache : List (String × Int × FastInfo)) (now : Int) : AnalyzeAction :=
  if url = "" ∨ is_analyzing = true then .ignored
  else
    match List.lookup cache_key cache with
    | some (t, info) => if now - t < 300 then .useCache info else .startProbe
    | none => .startProbe

/-! ## Quality mapping (`_download_fast_thread`, video branch) -/

/-- `self.quality_options`. -/
def quality_options : List String :=
  ["144p", "240p", "360p", "480p", "720p", "1080p", "1440p (2K)", "2160p (4K)"]

/-- The `quality_map` dict of `_download_fast_thread`. -/
def quality_map : List (String × String) :=
  [("144p", "worst[height<=144]"),
   ("240p", "best[height<=240]"),
   ("360p", "best[height<=360]"),
   ("480p", "best[height<=480]"),
   ("720p", "best[height<=720]"),
   ("1080p", "best[height<=1080]"),
   ("1440p (2K)", "best[height<=1440]"),
   ("2160p (4K)", "best[height<=2160]")]

/-- `quality_map.get(self.quality_var.get(), 'best')`. -/
def selectFormatExpr (q : String) : String := (List.lookup q quality_map).getD "best"

/-! ## Progress hook (`progress_hook_fast`) -/

/-- The status dict handed to the hook by the extraction collaborator.
Byte counts and speed are modelled as exact rationals.  `Option` encodes
the presence of a key in the dict. -/
structure ProgressDict where
  status : String
  downloaded_bytes : ℚ
  total_bytes : Option ℚ
  total_bytes_estimate : Option ℚ
  speed : Option ℚ
  deriving DecidableEq, Repr

/-- Fields marshalled to `update_progress_fast` via `self.after`.  The
textual ETA label is presentation only and is not modelled. -/
structure ProgressUpdate where
  percent : ℚ
  speed_mb : ℚ
  downloaded_mb : ℚ
  total_mb : ℚ
  deriving DecidableEq, Repr

/-- `progress_hook_fast`: on a `downloading` event, prefer the exact total,
fall back to the estimated total, and skip the update entirely (return and
schedule nothing) when neither is present. -/
def progress_hook_fast (d : ProgressDict) : Option ProgressUpdate :=
  if d.status = "downloading" then
    match d.total_bytes, d.total_bytes_estimate with
    | some tb, _ =>
        some { percent := d.downloaded_bytes / tb,
               speed_mb := d.speed.getD 0 / 1024 / 1024,
               downloaded_mb := d.downloaded_bytes / 1024 / 1024,
               total_mb := tb / 1024 / 1024 }
    | none, some te =>
        some { percent := d.downloaded_bytes / te,
               speed_mb := d.speed.getD 0 / 1024 / 1024,
               downloaded_mb := d.downloaded_bytes / 1024 / 1024,
               total_mb := te / 1024 / 1024 }
    | none, none => none
  else none

/-! ## Download orchestration (`start_download_fast`, `_download_fast_thread`) -/

/-- Result metadata of a successful extraction (`info.get('title', 'Unknown')`). -/
structure VideoInfo where
  title : Option String
  deriving DecidableEq, Repr

/-- The three target formats of `self.format_var`. -/
inductive Format where
  | mp4 | mp3 | mkv
  deriving DecidableEq, Repr

/-- String value of the format variable. -/
def Format.str : Format → String
  | .mp4 => "mp4"
  | .mp3 => "mp3"
  | .mkv => "mkv"

/-- Distinguishable outcomes of one download request. -/
inductive DlOutcome where
  | notStarted
  | ffmpegInstallPrompt
  | ffmpegErrorDialog
  | genericErrorNotice (msg : String)
  | completed
  deriving DecidableEq, Repr

/-- Error classification of the `except` branch of `_download_fast_thread`:
`"ffmpeg" in error_msg.lower() or "postprocessing" in error_msg.lower()`. -/
def is_conversion_error (msg : String) : Bool :=
  strContains (strToLower msg) "ffmpeg" || strContains (strToLower msg) "postprocessing"

/-- Outcome of the worker body plus the resulting history and the number of
`save_history` writes it performed. -/
structure ThreadResult where
  outcome : DlOutcome
  history : List HistoryItem
  saves : Nat
  deriving DecidableEq, Repr

/-- The history item built by `add_to_history` from the extractor result. -/
def mkHistoryItem (info : VideoInfo) (fmt : Format) (dateStr : String) : HistoryItem :=
  { title := strTake (info.title.getD "Unknown") 40, date := dateStr, format := fmt.str }

/-- Body of `_download_fast_thread` after the options are built: run the
extractor; on success schedule `add_to_history` (which persists once) and
completion; on failure classify the message and schedule the FFmpeg dialog
or a truncated generic notice, never touching the history. -/
def download_fast_thread (history : List HistoryItem) (fmt : Format)
    (extract : Except String VideoInfo) (dateStr : String) : ThreadResult :=
  match extract with
  | .ok info =>
      { outcome := .completed,
        history := add_to_history history (mkHistoryItem info fmt dateStr),
        saves := 1 }
  | .error msg =>
      if is_conversion_error msg then
        { outcome := .ffmpegErrorDialog, history := history, saves := 0 }
      else
        { outcome := .genericErrorNotice (strTake msg 50), history := history, saves := 0 }

/-- `start_download_fast` as a function of the URL-entry text, the selected
format, the FFmpeg flag, the current history and the extractor behaviour.
The second component records whether a worker thread was started. -/
def start_download_request (urlEntryText : String) (fmt : Format) (ffmpeg_available : Bool)
    (history : List HistoryItem) (extract : Except String VideoInfo) (dateStr : String) :
    ThreadResult × Bool :=
  let url := strTrim urlEntryText
  if url = "" then ({ outcome := .notStarted, history := history, saves := 0 }, false)
  else if fmt = Format.mp3 ∧ ffmpeg_available = false then
    ({ outcome := .ffmpegInstallPrompt, history := history, saves := 0 }, false)
  else (download_fast_thread history fmt extract dateStr, true)

/-! ## Callback contexts of the worker bodies -/

/-- The logical thread a UI callback is invoked on. -/
inductive Ctx where
  | ui | worker
  deriving DecidableEq, BEq, Repr

/-- Kind of callback invocation. -/
inductive CbKind where
  | progressCb | completeCb | errorCb
  deriving DecidableEq, BEq, Repr

/-- Callback invocations performed by `FFmpegManager.auto_install` with a
non-`None` `parent_callback`: every one of them is a direct call in the
calling (worker) context.  `ticks` counts the `urlretrieve` progress
callbacks with a positive total; the success path additionally reports the
extract step and the final success, the failure path reports the caught
exception. -/
def auto_install_callbacks (ticks : Nat) (success : Bool) : List (Ctx × CbKind) :=
  (Ctx.worker, CbKind.progressCb) ::
    (List.replicate ticks (Ctx.worker, CbKind.progressCb) ++
      (if success then
        [(Ctx.worker, CbKind.progressCb), (Ctx.worker, CbKind.progressCb)]
      else
        [(Ctx.worker, CbKind.errorCb)]))

/-- Callback invocations of `_install_ffmpeg_thread`: it first runs
`FFmpegManager.auto_install` with the `update_status` closure (which
configures UI labels directly), then marshals its own completion or error
updates through `self.after(0, ...)`. -/
def install_ffmpeg_thread_callbacks (ticks : Nat) (success : Bool) : List (Ctx × CbKind) :=
  auto_install_callbacks ticks success ++
    (if success then
      [(Ctx.ui, CbKind.completeCb), (Ctx.ui, CbKind.completeCb),
       (Ctx.ui, CbKind.completeCb), (Ctx.ui, CbKind.completeCb)]
    else
      [(Ctx.ui, CbKind.errorCb), (Ctx.ui, CbKind.errorCb)])

/-- Callback invocations of `_download_fast_thread`: every progress update
and the completion or error path go through `self.after(0, ...)`. -/
def download_thread_callbacks (progressEvents : Nat) (success : Bool) : List (Ctx × CbKind) :=
  List.replicate progressEvents (Ctx.ui, CbKind.progressCb) ++
    (if success then [(Ctx.ui, CbKind.completeCb), (Ctx.ui, CbKind.completeCb)]
     else [(Ctx.ui, CbKind.errorCb), (Ctx.ui, CbKind.errorCb)])

/-- Callback invocations of `_analyze_fast_thread`: the success and error
paths both go through `self.after(0, ...)`. -/
def analyze_thread_callbacks (success : Bool) : List (Ctx × CbKind) :=
  if success then [(Ctx.ui, CbKind.completeCb)] else [(Ctx.ui, CbKind.errorCb)]

/-! ## UI state machine -/

/-- The validity heuristic of `update_download_button_state`:
`url and ('youtube.com' in url or 'youtu.be' in url or url.startswith('http'))`. -/
def urlLooksValid (url : String) : Bool :=
  (url != "") &&
    (strContains url "youtube.com" || strContains url "youtu.be" || strStartsWith url "http")

namespace App

/-- Observable application state relevant to task orchestration: the URL
entry text, the smart download-button state, the `is_analyzing` guard, the
number of currently running probe and download workers, the selected
format, the FFmpeg flag, and the URLs handed to download workers (newest
first). -/
structure AppState where
  urlEntry : String
  btnEnabled : Bool
  is_analyzing : Bool
  probeWorkers : Nat
  dlWorkers : Nat
  format : Format
  ffmpeg_available : Bool
  dlStartedUrls : List String
  deriving DecidableEq, Repr

/-- State after `__init__`: empty entry, disabled button (the button is
created with `state="disabled"`), default format `mp4`, FFmpeg not yet
detected, no workers. -/
def initState : AppState :=
  { urlEntry := "", btnEnabled := false, is_analyzing := false, probeWorkers := 0,
    dlWorkers := 0, format := Format.mp4, ffmpeg_available := false, dlStartedUrls := [] }

/-- `update_download_button_state(url)`. -/
def update_download_button_state (s : AppState) (url : String) : AppState :=
  { s with btnEnabled := urlLooksValid url }

/-- Synchronous part of `analyze_url_fast(url)`: return when the URL is
empty or a probe is in flight; on a fresh cache hit only show the info;
otherwise set the guard and start a probe worker.  Whether the cache
lookup hits fresh is an environment choice (`cacheFreshHit`). -/
def analyze_url_fast (s : AppState) (url : String) (cacheFreshHit : Bool) : AppState :=
  if url = "" ∨ s.is_analyzing = true then s
  else if cacheFreshHit then s
  else { s with is_analyzing := true, probeWorkers := s.probeWorkers + 1 }

/-- `start_download_fast`: return on an empty stripped URL; on `mp3`
without FFmpeg, offer installation and return; otherwise disable the
button and start a download worker on the stripped URL. -/
def start_download_fast (s : AppState) : AppState :=
  let url := strTrim s.urlEntry
  if url = "" then s
  else if s.format = Format.mp3 ∧ s.ffmpeg_available = false then s
  else { s with btnEnabled := false, dlWorkers := s.dlWorkers + 1,
                dlStartedUrls := url :: s.dlStartedUrls }

/-- `reset_download_button`: re-enable whenever the stripped entry text is
non-empty (note: this does not re-check the `urlLooksValid` heuristic). -/
def reset_download_button (s : AppState) : AppState :=
  { s with btnEnabled := strTrim s.urlEntry != "" }

/-- `load_url(url)`: put the URL in the entry, update the button state and
analyze. -/
def load_url (s : AppState) (url : String) (cacheHit : Bool) : AppState :=
  analyze_url_fast (update_download_button_state { s with urlEntry := url } url) url cacheHit

/-- URL built for a search result: `https://youtube.com/watch?v=` plus id. -/
def searchUrl (vid : String) : String := "https://youtube.com/watch?v=" ++ vid

/-- User-visible events.  Environment choices (cache freshness, FFmpeg
detection result, worker termination) are event parameters. -/
inductive Event where
  | setUrl (u : String)
  | pressEnter (cacheHit : Bool)
  | clickDownload
  | searchDownload (vid : String) (cacheHit : Bool)
  | pasteUrl (u : String) (cacheHit : Bool)
  | setFormat (f : Format)
  | ffmpegChecked (avail : Bool)
  | probeDone
  | downloadDone
  deriving DecidableEq, Repr

/-- One step of the UI event loop.

* `setUrl`: typing fires `on_url_change`, which strips the entry text and
  updates the button state.
* `pressEnter`: the Return binding calls `analyze_url_fast` on the raw
  entry text.
* `clickDownload`: a click reaches `start_download_fast` only while the
  button is enabled.
* `searchDownload`: `download_from_search` runs `load_url` and then
  schedules `start_download_fast` (composed here as one step).
* `pasteUrl`: `paste_url` inserts the clipboard text, updates the button
  state with the raw text and analyzes it.
* `probeDone`: the probe worker ends, its `finally` clears `is_analyzing`.
* `downloadDone`: the download worker ends; both the success and the error
  path run `reset_download_button`. -/
def step (s : AppState) : Event → AppState
  | .setUrl u => update_download_button_state { s with urlEntry := u } (strTrim u)
  | .pressEnter hit => analyze_url_fast s s.urlEntry hit
  | .clickDownload => if s.btnEnabled then start_download_fast s else s
  | .searchDownload vid hit => start_download_fast (load_url s (searchUrl vid) hit)
  | .pasteUrl u hit =>
      if u = "" then s
      else analyze_url_fast (update_download_button_state { s with urlEntry := u } u) u hit
  | .setFormat f => { s with format := f }
  | .ffmpegChecked b => { s with ffmpeg_available := b }
  | .probeDone =>
      if 0 < s.probeWorkers then
        { s with probeWorkers := s.probeWorkers - 1, is_analyzing := false }
      else s
  | .downloadDone =>
      if 0 < s.dlWorkers then reset_download_button { s with dlWorkers := s.dlWorkers - 1 }
      else s

/-- Run a sequence of events from the initial state. -/
def run (evs : List Event) : AppState := evs.foldl step initState

end App

/-! ## Helper lemmas for the history bound -/

lemma add_to_history_eq_take (log : List HistoryItem) (a : HistoryItem)
    (h : log.length ≤ 20) : add_to_history log a = (a :: log).take 20 := by
  unfold add_to_history
  by_cases hl : (a :: log).length > 20
  · rw [if_pos hl, List.dropLast_eq_take]
    have h21 : (a :: log).length = 21 := by
      simp only [List.length_cons] at hl ⊢
      omega
    rw [h21]
  · rw [if_neg hl, List.take_of_length_le (by omega)]

lemma take_append_take (xs ys : List HistoryItem) (n : Nat) :
    (xs ++ ys.take n).take n = (xs ++ ys).take n := by
  rw [List.take_append_eq_append_take, List.take_append_eq_append_take, List.take_take,
    Nat.min_eq_left (Nat.sub_le n xs.length)]

lemma foldl_add_to_history (items : List HistoryItem) :
    ∀ log, log.length ≤ 20 → items.foldl add_to_history log = (items.reverse ++ log).take 20 := by
  induction items with
  | nil =>
    intro log h
    simp [List.take_of_length_le h]
  | cons a items ih =>
    intro log h
    have hlen : ((a :: log).take 20).length ≤ 20 := by
      simp [List.length_take]
    rw [List.foldl_cons, add_to_history_eq_take log a h, ih _ hlen, take_append_take]
    simp

/-- C2: for every sequence of appends starting from the empty history, the
log length never exceeds the cap of 20, and after more than 20 appends the
log equals exactly the 20 most recently appended items, newest first. -/
theorem c2_history_bound (items : List HistoryItem) :
    (historyAfter items).length ≤ 20 ∧
    (items.length > 20 → historyAfter items = items.reverse.take 20) := by
  have h : historyAfter items = items.reverse.take 20 := by
    have hf := foldl_add_to_history items [] (by simp)
    unfold historyAfter
    rw [hf, List.append_nil]
  refine ⟨?_, fun _ => h⟩
  rw [h]
  simp [List.length_take]

/-- Concrete item used by the witnesses. -/
def itemW : HistoryItem := { title := "t", date := "12:00", format := "mp4" }

/-- Twenty-one appended items. -/
def itemsW : List HistoryItem := List.replicate 21 itemW

/-- Witness for C2 at a concrete 21-item append sequence. -/
theorem c2_history_bound_witness :
    (historyAfter itemsW).length ≤ 20 ∧ historyAfter itemsW = itemsW.reverse.take 20 :=
  ⟨(c2_history_bound itemsW).1, (c2_history_bound itemsW).2 (by decide)⟩

/-- C3: for every cache entry and query time, the cache check of
`analyze_url_fast` uses the stored entry when `now - timestamp < 300` and
treats the entry as absent, starting a fresh probe, when
`now - timestamp >= 300`; the check never deletes the entry (it is a pure
read of the cache). -/
theorem c3_cache_freshness (url cache_key : String) (cache : List (String × Int × FastInfo))
    (now t : Int) (info : FastInfo)
    (hurl : url ≠ "") (hlk : List.lookup cache_key cache = some (t, info)) :
    (now - t < 300 → analyze_url_fast_action url cache_key false cache now = .useCache info) ∧
    (300 ≤ now - t → analyze_url_fast_action url cache_key false cache now = .startProbe) := by
  constructor
  · intro h
    simp [analyze_url_fast_action, hurl, hlk, h]
  · intro h
    have hnot : ¬(now - t < 300) := by omega
    simp [analyze_url_fast_action, hurl, hlk, hnot]

/-- Concrete cached info used by the C3 witness. -/
def infoW : FastInfo :=
  { title := "Test Song", channel := "Chan", duration := 10, is_playlist := false,
    video_count := 1 }

/-- Concrete one-entry cache captured at time 0. -/
def cacheW : List (String × Int × FastInfo) := [("k", (0, infoW))]

/-- Witness for C3: the entry is served at 100 s and absent at 300 s. -/
theorem c3_cache_freshness_witness :
    analyze_url_fast_action "u" "k" false cacheW 100 = .useCache infoW ∧
    analyze_url_fast_action "u" "k" false cacheW 300 = .startProbe :=
  ⟨(c3_cache_freshness "u" "k" cacheW 100 0 infoW (by decide) (by decide)).1 (by decide),
   (c3_cache_freshness "u" "k" cacheW 300 0 infoW (by decide) (by decide)).2 (by decide)⟩

/-- C4: an `mp3` download request while FFmpeg is unavailable is answered
proactively with the distinct install-offer outcome, before any worker
starts, with no history append and no persistence write; and reactively,
an extractor failure whose message matches the conversion keywords is
surfaced as the distinct FFmpeg dialog, again with no history append and
no persistence write.  Neither path is the generic error notice. -/
theorem c4_conversion_tool_required (url dateStr msg : String) (history : List HistoryItem)
    (extract : Except String VideoInfo) (fmt : Format)
    (hurl : strTrim url ≠ "") (hmsg : is_conversion_error msg = true) :
    start_download_request url Format.mp3 false history extract dateStr =
      ({ outcome := .ffmpegInstallPrompt, history := history, saves := 0 }, false) ∧
    download_fast_thread history fmt (.error msg) dateStr =
      { outcome := .ffmpegErrorDialog, history := history, saves := 0 } := by
  constructor
  · simp [start_download_request, hurl]
  · simp [download_fast_thread, hmsg]

/-- Witness for C4 at a concrete request and a concrete conversion error. -/
theorem c4_conversion_tool_required_witness :
    start_download_request "https://youtu.be/abc" Format.mp3 false [] (.error "x") "12:00" =
      ({ outcome := .ffmpegInstallPrompt, history := [], saves := 0 }, false) ∧
    download_fast_thread [] Format.mp3 (.error "ERROR: Postprocessing failed") "12:00" =
      { outcome := .ffmpegErrorDialog, history := [], saves := 0 } :=
  ⟨(c4_conversion_tool_required "https://youtu.be/abc" "12:00" "ERROR: Postprocessing failed"
      [] (.error "x") Format.mp3 (by decide) (by decide)).1,
   (c4_conversion_tool_required "https://youtu.be/abc" "12:00" "ERROR: Postprocessing failed"
      [] (.error "x") Format.mp3 (by decide) (by decide)).2⟩

/-- C5: the quality-to-selection mapping is a deterministic total function
on the 8 tiers: `144p` maps to the worst-at-most-144 policy and every
other tier maps to the best-at-most-threshold policy. -/
theorem c5_quality_mapping :
    selectFormatExpr "144p" = "worst[height<=144]" ∧
    selectFormatExpr "240p" = "best[height<=240]" ∧
    selectFormatExpr "360p" = "best[height<=360]" ∧
    selectFormatExpr "480p" = "best[height<=480]" ∧
    selectFormatExpr "720p" = "best[height<=720]" ∧
    selectFormatExpr "1080p" = "best[height<=1080]" ∧
    selectFormatExpr "1440p (2K)" = "best[height<=1440]" ∧
    selectFormatExpr "2160p (4K)" = "best[height<=2160]" ∧
    quality_options.length = 8 ∧
    (quality_options.all fun q => (List.lookup q quality_map).isSome) = true := by
  decide

/-- C7: the claim that every progress, completion and error callback of
every background task runs on the UI-owning context fails for the
tool-installation task: `FFmpegManager.auto_install` invokes the status
callback (the `update_status` closure, which configures UI labels)
directly in the worker context, while the download worker marshals all of
its callbacks through `after`.  This theorem evaluates both worker bodies:
the installation callback list contains worker-context invocations on the
success path and on the failure path, unlike the download callback list. -/
theorem c7_install_callbacks_on_worker_context :
    ((install_ffmpeg_thread_callbacks 0 true).any fun e => e.1 == Ctx.worker) = true ∧
    ((install_ffmpeg_thread_callbacks 3 false).any fun e => e.1 == Ctx.worker) = true ∧
    ((download_thread_callbacks 2 true).all fun e => e.1 == Ctx.ui) = true ∧
    ((download_thread_callbacks 2 false).all fun e => e.1 == Ctx.ui) = true ∧
    ((analyze_thread_callbacks true).all fun e => e.1 == Ctx.ui) = true := by
  decide

/-- C8: `clear_history` on an empty log is a no-op that neither prompts
nor persists nor changes the log; repeating a clear with the same answer
changes nothing further (idempotence); and a non-empty log is emptied (and
persisted) exactly when the user confirms, after being prompted. -/
theorem c8_clear_idempotent :
    (∀ c, clear_history [] c = { history := [], prompted := false, saved := false }) ∧
    (∀ h c, (clear_history (clear_history h c).history c).history =
      (clear_history h c).history) ∧
    (∀ h c, h ≠ [] →
      ((clear_history h c).history = [] ↔ c = true) ∧
      (clear_history h c).prompted = true ∧
      ((clear_history h c).saved = true ↔ c = true)) := by
  refine ⟨fun c => by simp [clear_history], fun h c => ?_, fun h c hne => ?_⟩
  · rcases h with _ | ⟨a, t⟩ <;> cases c <;> simp [clear_history]
  · cases c <;> simp [clear_history, hne]

/-- Witness for C8 on a concrete non-empty log with a confirming user. -/
theorem c8_clear_idempotent_witness :
    ((clear_history [itemW] true).history = [] ↔ true = true) ∧
    (clear_history [itemW] true).prompted = true ∧
    ((clear_history [itemW] true).saved = true ↔ true = true) :=
  c8_clear_idempotent.2.2 [itemW] true (by decide)

/-- C9: a `downloading` progress event with neither an exact nor an
estimated total is skipped (no UI progress change is scheduled); when an
exact total is present the reported fraction is `downloaded_bytes`
divided by it, and when only the estimated total is present the fraction
is `downloaded_bytes` divided by the estimate. -/
theorem c9_progress_skip_or_fraction (d : ProgressDict) (tb te : ℚ) :
    (d.status = "downloading" → d.total_bytes = none → d.total_bytes_estimate = none →
      progress_hook_fast d = none) ∧
    (d.status = "downloading" → d.total_bytes = some tb →
      (progress_hook_fast d).map ProgressUpdate.percent = some (d.downloaded_bytes / tb)) ∧
    (d.status = "downloading" → d.total_bytes = none → d.total_bytes_estimate = some te →
      (progress_hook_fast d).map ProgressUpdate.percent = some (d.downloaded_bytes / te)) := by
  refine ⟨fun h1 h2 h3 => ?_, fun h1 h2 => ?_, fun h1 h2 h3 => ?_⟩
  · simp [progress_hook_fast, h1, h2, h3]
  · simp [progress_hook_fast, h1, h2]
  · simp [progress_hook_fast, h1, h2, h3]

/-- Progress event with an exact 10 MB total, half downloaded. -/
def progressDictW : ProgressDict :=
  { status := "downloading", downloaded_bytes := 5242880, total_bytes := some 10485760,
    total_bytes_estimate := none, speed := some 1048576 }

/-- Progress event carrying no total at all. -/
def noTotalsW : ProgressDict :=
  { status := "downloading", downloaded_bytes := 5242880, total_bytes := none,
    total_bytes_estimate := none, speed := none }

/-- Witness for C9: the no-total event is skipped and the exact-total
event reports the exact fraction. -/
theorem c9_progress_skip_or_fraction_witness :
    progress_hook_fast noTotalsW = none ∧
    (progress_hook_fast progressDictW).map ProgressUpdate.percent =
      some (progressDictW.downloaded_bytes / 10485760) :=
  ⟨(c9_progress_skip_or_fraction noTotalsW 0 0).1 rfl rfl rfl,
   (c9_progress_skip_or_fraction progressDictW 10485760 0).2.1 rfl rfl⟩

/-- C10: when the extractor raises, `_download_fast_thread` leaves the
history unchanged and performs no persistence write, whatever the message,
the format and the prior history: the append is scheduled only after a
successful extraction. -/
theorem c10_failed_download_preserves_history (history : List HistoryItem) (fmt : Format)
    (msg dateStr : String) :
    (download_fast_thread history fmt (.error msg) dateStr).history = history ∧
    (download_fast_thread history fmt (.error msg) dateStr).saves = 0 := by
  cases h : is_conversion_error msg <;> simp [download_fast_thread, h]

/-! ## Single-flight and validation over the state machine -/

/-- Probe single-flight invariant: at most one probe worker, and the
`is_analyzing` flag tracks it exactly. -/
def probeInv (s : App.AppState) : Prop :=
  s.probeWorkers ≤ 1 ∧ (s.is_analyzing = true ↔ s.probeWorkers = 1)

lemma probeInv_of_fields {s t : App.AppState} (h1 : t.probeWorkers = s.probeWorkers)
    (h2 : t.is_analyzing = s.is_analyzing) (h : probeInv s) : probeInv t := by
  unfold probeInv at h ⊢
  rw [h1, h2]
  exact h

lemma analyze_probe_fields (s : App.AppState) (url : String) (hit : Bool) :
    ((App.analyze_url_fast s url hit).dlStartedUrls = s.dlStartedUrls ∧
      (App.analyze_url_fast s url hit).dlWorkers = s.dlWorkers) ∧
    (App.analyze_url_fast s url hit).urlEntry = s.urlEntry ∧
    (App.analyze_url_fast s url hit).btnEnabled = s.btnEnabled := by
  unfold App.analyze_url_fast
  split_ifs <;> simp

lemma start_probe_fields (s : App.AppState) :
    (App.start_download_fast s).probeWorkers = s.probeWorkers ∧
    (App.start_download_fast s).is_analyzing = s.is_analyzing := by
  unfold App.start_download_fast
  by_cases h1 : strTrim s.urlEntry = ""
  · simp [h1]
  · by_cases h2 : s.format = Format.mp3 ∧ s.ffmpeg_available = false
    · simp [h1, h2]
    · simp [h1, h2]

lemma probeInv_analyze (s : App.AppState) (url : String) (hit : Bool) (h : probeInv s) :
    probeInv (App.analyze_url_fast s url hit) := by
  unfold App.analyze_url_fast
  split_ifs with h1 h2
  · exact h
  · exact h
  · have hia : s.is_analyzing = false := by
      cases hb : s.is_analyzing with
      | false => rfl
      | true => exact absurd (Or.inr hb) h1
    have hp0 : s.probeWorkers = 0 := by
      rcases h with ⟨hle, hiff⟩
      rw [hia] at hiff
      simp only [Bool.false_eq_true, false_iff] at hiff
      omega
    constructor <;> simp [hp0]

lemma probeInv_start (s : App.AppState) (h : probeInv s) :
    probeInv (App.start_download_fast s) :=
  probeInv_of_fields (start_probe_fields s).1 (start_probe_fields s).2 h

lemma probeInv_step (s : App.AppState) (e : App.Event) (h : probeInv s) :
    probeInv (App.step s e) := by
  cases e with
  | setUrl u => exact h
  | pressEnter hit => exact probeInv_analyze s s.urlEntry hit h
  | clickDownload =>
    simp only [App.step]
    split_ifs with hb
    · exact probeInv_start s h
    · exact h
  | searchDownload vid hit =>
    exact probeInv_start _ (probeInv_analyze _ _ hit h)
  | pasteUrl u hit =>
    simp only [App.step]
    split_ifs with hu
    · exact h
    · exact probeInv_analyze _ u hit h
  | setFormat f => exact h
  | ffmpegChecked b => exact h
  | probeDone =>
    simp only [App.step]
    split_ifs with hp
    · rcases h with ⟨hle, _⟩
      constructor <;> simp <;> omega
    · exact h
  | downloadDone =>
    simp only [App.step]
    split_ifs with hd
    · exact h
    · exact h

lemma probeInv_foldl (evs : List App.Event) :
    ∀ s, probeInv s → probeInv (evs.foldl App.step s) := by
  induction evs with
  | nil => intro s h; exact h
  | cons e evs ih => intro s h; exact ih _ (probeInv_step s e h)

/-- C1 counterexample: the trace in which the user enters a valid URL,
clicks download, retypes the URL while the download runs (re-enabling the
button through `on_url_change`) and clicks download again. -/
def c1Trace : List App.Event :=
  [App.Event.setUrl "https://youtu.be/a", App.Event.clickDownload,
   App.Event.setUrl "https://youtu.be/a", App.Event.clickDownload]

/-- C1 falsified as stated: a second download request while a download is
in flight does start a second worker, so two download workers of the same
kind are in flight simultaneously. -/
theorem c1_counterexample_two_download_workers :
    (App.run c1Trace).dlWorkers = 2 := by decide

/-- C1 amended: the probe kind is genuinely single-flight (for every event
sequence at most one probe worker is in flight, and a probe request while
one is in flight is ignored outright); download single-flight is enforced
only through the transient button state and fails (see the
counterexample). -/
theorem c1_probe_single_flight :
    (∀ evs, (App.run evs).probeWorkers ≤ 1) ∧
    (∀ s hit, s.is_analyzing = true → App.step s (App.Event.pressEnter hit) = s) := by
  constructor
  · intro evs
    exact (probeInv_foldl evs App.initState (by constructor <;> simp [App.initState])).1
  · intro s hit h
    simp [App.step, App.analyze_url_fast, h]

/-- State with a probe in flight. -/
def sAnalyzing : App.AppState := { App.initState with is_analyzing := true }

/-- Witness for the amended C1 on a concrete trace and a concrete
in-flight state. -/
theorem c1_probe_single_flight_witness :
    (App.run [App.Event.pasteUrl "https://youtu.be/a" false,
      App.Event.pressEnter false]).probeWorkers ≤ 1 ∧
    App.step sAnalyzing (App.Event.pressEnter true) = sAnalyzing :=
  ⟨c1_probe_single_flight.1 [App.Event.pasteUrl "https://youtu.be/a" false,
      App.Event.pressEnter false],
   c1_probe_single_flight.2 sAnalyzing true rfl⟩

/-- Every URL handed to a download worker is non-empty. -/
def startedNonEmpty (s : App.AppState) : Prop :=
  ∀ u ∈ s.dlStartedUrls, u ≠ ""

lemma startedNonEmpty_of_eq {s t : App.AppState}
    (h1 : t.dlStartedUrls = s.dlStartedUrls) (h : startedNonEmpty s) : startedNonEmpty t := by
  unfold startedNonEmpty at h ⊢
  rw [h1]
  exact h

lemma startedNonEmpty_start (s : App.AppState) (h : startedNonEmpty s) :
    startedNonEmpty (App.start_download_fast s) := by
  have hred : App.start_download_fast s =
      if strTrim s.urlEntry = "" then s
      else if s.format = Format.mp3 ∧ s.ffmpeg_available = false then s
      else { s with btnEnabled := false, dlWorkers := s.dlWorkers + 1,
                    dlStartedUrls := strTrim s.urlEntry :: s.dlStartedUrls } := rfl
  rw [hred]
  by_cases h1 : strTrim s.urlEntry = ""
  · rw [if_pos h1]; exact h
  · rw [if_neg h1]
    by_cases h2 : s.format = Format.mp3 ∧ s.ffmpeg_available = false
    · rw [if_pos h2]; exact h
    · rw [if_neg h2]
      intro u hu
      rcases List.mem_cons.mp hu with hu | hu
      · rw [hu]; exact h1
      · exact h u hu

lemma startedNonEmpty_step (s : App.AppState) (e : App.Event) (h : startedNonEmpty s) :
    startedNonEmpty (App.step s e) := by
  cases e with
  | setUrl u => exact h
  | pressEnter hit =>
    exact startedNonEmpty_of_eq (analyze_probe_fields s s.urlEntry hit).1.1 h
  | clickDownload =>
    simp only [App.step]
    split_ifs with hb
    · exact startedNonEmpty_start s h
    · exact h
  | searchDownload vid hit =>
    exact startedNonEmpty_start _
      (startedNonEmpty_of_eq (analyze_probe_fields _ _ hit).1.1 h)
  | pasteUrl u hit =>
    simp only [App.step]
    split_ifs with hu
    · exact h
    · exact startedNonEmpty_of_eq (analyze_probe_fields _ u hit).1.1 h
  | setFormat f => exact h
  | ffmpegChecked b => exact h
  | probeDone =>
    simp only [App.step]
    split_ifs with hp
    · exact h
    · exact h
  | downloadDone =>
    simp only [App.step]
    split_ifs with hd
    · exact h
    · exact h

lemma startedNonEmpty_foldl (evs : List App.Event) :
    ∀ s, startedNonEmpty s → startedNonEmpty (evs.foldl App.step s) := by
  induction evs with
  | nil => intro s h; exact h
  | cons e evs ih => intro s h; exact ih _ (startedNonEmpty_step s e h)

/-- C6 counterexample trace: a download of a valid URL is started, the user
types `hello` while it runs (the smart button correctly disables), the
download finishes and `reset_download_button` re-enables the button
because the entry is merely non-empty, and a click then starts a worker —
and hence an extractor call — on `hello`. -/
def c6Trace : List App.Event :=
  [App.Event.setUrl "https://youtu.be/a", App.Event.clickDownload,
   App.Event.setUrl "hello", App.Event.downloadDone, App.Event.clickDownload]

/-- C6 falsified as stated: a download worker is started on the URL
`hello`, which is non-empty but fails the web-address heuristic. -/
theorem c6_counterexample_unvalidated_url :
    (App.run c6Trace).dlStartedUrls = ["hello", "https://youtu.be/a"] ∧
    urlLooksValid "hello" = false := by decide

/-- C6 amended: empty URLs are always rejected before any background task
starts (`start_download_fast` returns on an empty stripped URL, so every
URL ever handed to a download worker is non-empty), and a request through
the disabled button is ignored; but the web-address heuristic is only
enforced through the button state, which `reset_download_button`
re-enables for any non-empty entry after a download finishes (see the
counterexample). -/
theorem c6_empty_url_rejected :
    (∀ evs u, u ∈ (App.run evs).dlStartedUrls → u ≠ "") ∧
    (∀ s, s.btnEnabled = false → App.step s App.Event.clickDownload = s) := by
  constructor
  · intro evs u hu
    exact startedNonEmpty_foldl evs App.initState (by intro u hu; cases hu) u hu
  · intro s h
    simp [App.step, h]

/-- Witness for the amended C6 on the concrete trace and the initial
state, whose button is disabled. -/
theorem c6_empty_url_rejected_witness :
    "hello" ≠ "" ∧ App.step App.initState App.Event.clickDownload = App.initState :=
  ⟨c6_empty_url_rejected.1 c6Trace "hello" (by decide),
   c6_empty_url_rejected.2 App.initState rfl⟩

end YTDP
